import Mathlib

/-!
Verification of the playlist diff-and-notify utility (src/stalker.py).

Shallow embedding notes:
  - A `Track` is the normalized dict built by `get_playlist_tracks`
    (keys id, name, artist, url, all strings).
  - The snapshot file is modelled at the record level: the csv codec of the
    standard library is treated as a faithful transport of a sequence of
    records (lists of string fields), so the file state is
    `Option (List (List String))` — `none` when the file does not exist.
  - Python dicts produced by `csv.DictReader` are modelled as association
    lists with last-binding-wins lookup (`dictGet`), matching dict
    construction from a key/value sequence.
  - The HTTP layer (httpx) is an oracle: the environment supplies each
    network interaction's outcome as an `Except` value; exceptions raised
    by components are the `Except.error` cases.
-/

namespace Stalker

/-- The normalized track dict built by `get_playlist_tracks`
(src/stalker.py lines 64-69). -/
structure Track where
  id : String
  name : String
  artist : String
  url : String
deriving DecidableEq, Repr

/-- Python exception kinds raised by the components of stalker.py.
All of them are `Exception` subclasses, none is an `httpx.HTTPError`
(component code re-raises httpx errors as builtins), so the orchestrator's
second handler (`except Exception`) is the one that fires. -/
inductive PyErr where
  | valueError (msg : String)
  | runtimeError (msg : String)
  | connectionError (msg : String)
  | keyError (msg : String)
deriving DecidableEq, Repr

/-! ## Snapshot store (load_existing_tracks / save_tracks) -/

/-- The snapshot file's state: `none` when `data/playlist_songs.csv` does not
exist, otherwise the sequence of csv records it holds. -/
abbrev FileState := Option (List (List String))

/-- A row dict as returned by `csv.DictReader`: fieldnames zipped with the
row's values. -/
abbrev Row := List (String × String)

/-- Python dict lookup on an association list built left to right: a later
binding of the same key overwrites an earlier one. `none` models `KeyError`. -/
def dictGet (k : String) (r : Row) : Option String :=
  r.foldl (fun acc kv => if kv.1 = k then some kv.2 else acc) none

/-- The csv header `save_tracks` writes (its `fieldnames`,
src/stalker.py line 107). -/
def fieldnames : List String := ["id", "name", "artist", "url"]

/-- The record `csv.DictWriter.writerow` emits for one track dict: the
values in fieldname order. -/
def trackToRecord (t : Track) : List String :=
  [t.id, t.name, t.artist, t.url]

/-- save_tracks (src/stalker.py lines 106-111): opens the file for writing
(truncating), writes the header row, then one record per track in order.
The whole previous content is replaced. -/
def save_tracks (tracks : List Track) (_fs : FileState) : FileState :=
  some (fieldnames :: tracks.map trackToRecord)

/-- load_existing_tracks (src/stalker.py lines 98-103): if the file does not
exist, return []; otherwise read it with `csv.DictReader`, which takes the
first record as the fieldnames and yields one dict per remaining record
(fieldnames zipped with the record's values). -/
def load_existing_tracks (fs : FileState) : List Row :=
  match fs with
  | none => []
  | some [] => []
  | some (header :: records) => records.map (fun r => header.zip r)

/-! ### File operations at the open/close level, for frame reasoning.
`load_existing_tracks` opens the file with mode `r` (a read; and only when
`csv_path.exists()`), `save_tracks` with mode `w` (a truncating write). -/

/-- One file operation on the snapshot path. -/
inductive FileOp where
  | read
  | write (content : List (List String))
deriving DecidableEq, Repr

/-- Effect of a file operation on the snapshot file's state. -/
def applyFileOp (fs : FileState) : FileOp → FileState
  | .read => fs
  | .write content => some content

/-- The operations `load_existing_tracks` performs on the file: one read
when the file exists, none otherwise (lines 99-102). -/
def loadFileOps (fs : FileState) : List FileOp :=
  match fs with
  | none => []
  | some _ => [.read]

/-- The operations `save_tracks` performs on the file: a single truncating
write of header plus records (lines 108-111). -/
def saveFileOps (tracks : List Track) : List FileOp :=
  [.write (fieldnames :: tracks.map trackToRecord)]

/-! ## Playlist fetcher (get_playlist_tracks) -/

/-- One artist object inside `track.artists`. `name` is `none` when the
`name` key is absent (access raises `KeyError`). -/
structure ApiArtist where
  name : Option String
deriving DecidableEq, Repr

/-- The nested track object of a playlist item. For each field, `none`
models the key being absent from the JSON object, so that subscripting it
raises `KeyError`. An `artists` value that is present but null behaves in
the source exactly like a present empty list (both are falsy in the
conditional expression on line 67), so both are modelled as `some []`.
`external_urls` is a dict, modelled as an association list. -/
structure ApiTrack where
  id : Option String
  name : Option String
  artists : Option (List ApiArtist)
  external_urls : Option Row
deriving DecidableEq, Repr

/-- One element of a page's `items` array: the `track` key may be absent,
null (a deleted track), or a track object. -/
inductive ApiItem where
  | missingTrack
  | nullTrack
  | someTrack (t : ApiTrack)
deriving DecidableEq, Repr

/-- The per-item body of the fetch loop (src/stalker.py lines 59-72).
`none` = the item contributes no track: either `track is None` (line 62,
silent skip) or a `KeyError`/`IndexError` during normalization (lines 70-72,
logged skip). The artist expression mirrors line 67: evaluate
`track[artists]` first (KeyError if the key is absent → skip); if falsy,
the sentinel; otherwise the first artist's `name` (KeyError if absent). -/
def processItem : ApiItem → Option Track
  | .missingTrack => none
  | .nullTrack => none
  | .someTrack t =>
    match t.id, t.name, t.artists, t.external_urls with
    | some id, some name, some artists, some urls =>
      let artist? : Option String :=
        match artists with
        | [] => some "Unknown Artist"
        | a :: _ => a.name
      match artist?, dictGet "spotify" urls with
      | some artist, some url => some ⟨id, name, artist, url⟩
      | _, _ => none
    | _, _, _, _ => none

/-- get_playlist_tracks (src/stalker.py lines 43-95): the pagination loop,
with the HTTP transport already resolved into the list of pages it would
deliver (the `next` URL chaining and the error taxonomy live in the
`Env` oracle below). Each page's items are appended in order after
per-item processing. -/
def get_playlist_tracks (pages : List (List ApiItem)) : List Track :=
  pages.foldl (fun acc items => acc ++ items.filterMap processItem) []

/-! ## Notifier (format_tracks_message) -/

/-- The fixed preamble sentence (src/stalker.py line 146). -/
def preambleLine : String :=
  "Looks like your friends have added some new songs to the playlist."

/-- The per-track message block (src/stalker.py line 148). -/
def trackBlock (t : Track) : String :=
  t.name ++ " - " ++ t.artist ++ "\n" ++ t.url

/-- Python's `sep.join(parts)`: the parts concatenated with `sep` between
consecutive parts, nothing leading or trailing. -/
def strJoin (sep : String) : List String → String
  | [] => ""
  | [a] => a
  | a :: b :: rest => a ++ sep ++ strJoin sep (b :: rest)

/-- format_tracks_message (src/stalker.py lines 144-149): the preamble then
one block per track, joined with a blank line. -/
def format_tracks_message (tracks : List Track) : String :=
  strJoin "\n\n" (preambleLine :: tracks.map trackBlock)

/-! ## Orchestrator (main) -/

/-- The id set comprehension of src/stalker.py line 160 (the set of each
existing row's id value): `none` when some row has no `id` key (the
comprehension raises `KeyError`). Set membership on the result coincides
with list membership of the collected ids. -/
def existingIdsOf : List Row → Option (List String)
  | [] => some []
  | r :: rs =>
    match dictGet "id" r, existingIdsOf rs with
    | some y, some ys => some (y :: ys)
    | _, _ => none

/-- The list comprehension of src/stalker.py line 161:
the fresh tracks whose id is not among the existing ids. -/
def new_tracks_of (current : List Track) (existing_ids : List String) :
    List Track :=
  current.filter (fun t => !(existing_ids.contains t.id))

/-- The lines main prints for one new track (src/stalker.py lines 166-168). -/
def printTrackLines (t : Track) : List String :=
  ["\nNew song: " ++ t.name, "Artist: " ++ t.artist, "URL: " ++ t.url]

/-- The outcomes of the run's network interactions, supplied by the outside
world: token acquisition, the whole paginated playlist fetch (an error
anywhere in the pagination aborts the whole fetch and discards the partial
result), and message delivery. `Except.error` is the component raising. -/
structure Env where
  tokenResult : Except PyErr String
  fetchPages : String → Except PyErr (List (List ApiItem))
  sendResult : String → Except PyErr Unit

/-- Observable state accumulated by a run of main: the snapshot file, the
lines printed by main, the messages handed to `send_telegram_message`, and
those it actually delivered. (Per-item log lines and the empty-playlist
warning printed inside the fetcher are not tracked.) -/
structure RunState where
  fs : FileState
  printed : List String
  attempted : List String
  sent : List String
deriving DecidableEq, Repr

/-- The body of main's `try` block (src/stalker.py lines 155-174): runs up
to the first exception; an error carries the raised exception together with
the effects already performed, which survive the exception. -/
def mainBody (env : Env) (fs : FileState) : Except (PyErr × RunState) RunState :=
  match env.tokenResult with
  | .error e => .error (e, ⟨fs, [], [], []⟩)
  | .ok token =>
  match env.fetchPages token with
  | .error e => .error (e, ⟨fs, [], [], []⟩)
  | .ok pages =>
  let current_tracks := get_playlist_tracks pages
  let existing_tracks := load_existing_tracks fs
  match existingIdsOf existing_tracks with
  | none => .error (.keyError "id", ⟨fs, [], [], []⟩)
  | some existing_ids =>
  let new_tracks := new_tracks_of current_tracks existing_ids
  if new_tracks.isEmpty then
    .ok ⟨fs, ["No new songs found."], [], []⟩
  else
    let printed := "New songs found:" :: new_tracks.flatMap printTrackLines
    let message := format_tracks_message new_tracks
    match env.sendResult message with
    | .error e => .error (e, ⟨fs, printed, [message], []⟩)
    | .ok _ =>
      .ok ⟨save_tracks current_tracks fs, printed, [message], [message]⟩

/-- The line the orchestrator's catch-all handler prints
(src/stalker.py line 179; the `httpx.HTTPError` handler on line 176 is
unreachable for the exceptions the components raise, which are all
builtins). -/
def errLine (e : PyErr) : String :=
  match e with
  | .valueError m => "An error occurred: " ++ m
  | .runtimeError m => "An error occurred: " ++ m
  | .connectionError m => "An error occurred: " ++ m
  | .keyError m => "An error occurred: " ++ m

/-- A finished run: the final state and whether the process terminated
normally. -/
structure RunResult where
  state : RunState
  exitedCleanly : Bool
deriving DecidableEq, Repr

/-- main (src/stalker.py lines 152-179): the try body wrapped in the
top-level exception handlers, which print the error and fall through to a
normal exit. -/
def main (env : Env) (fs : FileState) : RunResult :=
  match mainBody env fs with
  | .ok s => ⟨s, true⟩
  | .error (e, s) => ⟨{ s with printed := s.printed ++ [errLine e] }, true⟩

/-! ## Helper lemmas -/

/-- Unfolding the page fold of the fetcher into a flat map. -/
lemma get_playlist_tracks_eq (pages : List (List ApiItem)) :
    get_playlist_tracks pages
      = pages.flatMap (fun items => items.filterMap processItem) := by
  suffices h : ∀ acc : List Track,
      pages.foldl (fun acc items => acc ++ items.filterMap processItem) acc
        = acc ++ pages.flatMap (fun items => items.filterMap processItem) by
    simpa [get_playlist_tracks] using h []
  induction pages with
  | nil => intro acc; simp
  | cons p ps ih => intro acc; simp [ih, List.append_assoc]

/-- A successfully processed item is a non-null track object whose id value
was present and is propagated verbatim. -/
lemma processItem_some {it : ApiItem} {tr : Track}
    (h : processItem it = some tr) :
    ∃ t : ApiTrack, it = .someTrack t ∧ t.id = some tr.id := by
  cases it with
  | missingTrack => simp [processItem] at h
  | nullTrack => simp [processItem] at h
  | someTrack t =>
    refine ⟨t, rfl, ?_⟩
    obtain ⟨i, n, ar, eu⟩ := t
    cases i with
    | none => simp [processItem] at h
    | some id =>
      cases n with
      | none => simp [processItem] at h
      | some name =>
        cases ar with
        | none => simp [processItem] at h
        | some artists =>
          cases eu with
          | none => simp [processItem] at h
          | some urls =>
            simp only [processItem] at h
            cases hart : (match artists with
                | [] => some "Unknown Artist"
                | a :: _ => a.name) with
            | none => rw [hart] at h; cases hurl : dictGet "spotify" urls <;>
                simp [hurl] at h
            | some artist =>
              rw [hart] at h
              cases hurl : dictGet "spotify" urls with
              | none => simp [hurl] at h
              | some url =>
                simp [hurl] at h
                simp [← h]

/-- Membership in the collected id list of `existingIdsOf`: an id occurs
exactly when some row's id value is that id. -/
lemma mem_existingIdsOf {rows : List Row} {ids : List String}
    (h : existingIdsOf rows = some ids) (x : String) :
    x ∈ ids ↔ ∃ r ∈ rows, dictGet "id" r = some x := by
  induction rows generalizing ids with
  | nil =>
    simp only [existingIdsOf, Option.some_inj] at h
    simp [← h]
  | cons r rs ih =>
    simp only [existingIdsOf] at h
    cases hr : dictGet "id" r with
    | none => rw [hr] at h; simp at h
    | some y =>
      rw [hr] at h
      cases hrs : existingIdsOf rs with
      | none => rw [hrs] at h; simp at h
      | some ys =>
        rw [hrs] at h
        simp only [Option.some_inj] at h
        subst h
        have hmem := ih hrs
        constructor
        · intro hx
          rcases List.mem_cons.mp hx with h1 | h2
          · exact ⟨r, List.mem_cons_self r rs, by rw [hr, h1]⟩
          · obtain ⟨r', hr', hx'⟩ := hmem.mp h2
            exact ⟨r', List.mem_cons_of_mem _ hr', hx'⟩
        · rintro ⟨r', hr', hx'⟩
          rcases List.mem_cons.mp hr' with h1 | h2
          · subst h1
            rw [hr] at hx'
            exact List.mem_cons.mpr (Or.inl (Option.some_inj.mp hx').symm)
          · exact List.mem_cons.mpr (Or.inr (hmem.mpr ⟨r', h2, hx'⟩))

/-- Concatenation of parts each preceded by the separator; the tail shape
of a Python join. -/
def sepConcat (sep : String) : List String → String
  | [] => ""
  | b :: bs => sep ++ b ++ sepConcat sep bs

/-- A nonempty join is its head followed by each later part preceded by the
separator. -/
lemma strJoin_cons_eq (sep a : String) (l : List String) :
    strJoin sep (a :: l) = a ++ sepConcat sep l := by
  induction l generalizing a with
  | nil => simp [strJoin, sepConcat]
  | cons b bs ih =>
    show strJoin sep (a :: b :: bs) = a ++ (sep ++ b ++ sepConcat sep bs)
    rw [strJoin, ih b]
    simp [String.append_assoc]

/-! ## Fixtures for witnesses and counterexamples -/

/-- A fresh fetch with two tracks. -/
def freshTwo : List Track :=
  [⟨"1", "Song One", "Artist A", "urlone"⟩,
   ⟨"2", "Song Two", "Artist B", "urltwo"⟩]

/-- A snapshot row for the track with id 1, as a DictReader dict. -/
def rowOne : Row :=
  [("id", "1"), ("name", "Song One"), ("artist", "Artist A"), ("url", "urlone")]

/-- A well-formed playlist item carrying the first track of `freshTwo`. -/
def goodItem : ApiItem :=
  .someTrack ⟨some "1", some "Song One", some [⟨some "Artist A"⟩],
    some [("spotify", "urlone")]⟩

/-- A playlist item whose track object has every required field except the
artists key, which is absent. -/
def missingArtistsItem : ApiItem :=
  .someTrack ⟨some "42", some "Song", none, some [("spotify", "urlx")]⟩

/-- A playlist item whose track object is well-formed but whose id value is
the empty string. -/
def emptyIdItem : ApiItem :=
  .someTrack ⟨some "", some "Song", some [⟨some "Artist"⟩],
    some [("spotify", "urly")]⟩

/-- Whether an item's track object, if any, carries a non-empty id value
(an absent id key counts as ok: such an item is skipped anyway). -/
def itemIdOk : ApiItem → Bool
  | .someTrack t =>
    match t.id with
    | some s => !(s == "")
    | none => true
  | _ => true

/-- An environment whose fetch returns no pages and whose delivery would
succeed. -/
def envNoNew : Env :=
  ⟨.ok "tok", fun _ => .ok [], fun _ => .ok ()⟩

/-- An environment whose fetch returns one page with one good item and
whose delivery fails with a network error. -/
def envSendFails : Env :=
  ⟨.ok "tok", fun _ => .ok [[goodItem]],
    fun _ => .error (.connectionError "down")⟩

end Stalker

open Stalker

/-- Claim C1: for every fresh fetch list F and snapshot list S, the diff the
orchestrator computes on line 161 (against the id set of line 160) returns
exactly the elements of F whose id is not among the ids of S, preserving
F's original order (it is a sublist of F); being a Lean function of F and
the snapshot rows, it is pure. -/
theorem diff_is_set_difference_by_id (F : List Track) (rows : List Row)
    (ids : List String) (h : existingIdsOf rows = some ids) :
    (∀ t, t ∈ new_tracks_of F ids
        ↔ t ∈ F ∧ ¬ ∃ r ∈ rows, dictGet "id" r = some t.id)
    ∧ (new_tracks_of F ids).Sublist F := by
  constructor
  · intro t
    rw [new_tracks_of, List.mem_filter]
    have hc : (!(ids.contains t.id)) = true ↔ t.id ∉ ids := by simp
    rw [hc, mem_existingIdsOf h]
  · exact List.filter_sublist F

/-- Witness for C1 at a concrete fetch and snapshot: fresh tracks with ids
1 and 2 against a snapshot holding id 1. -/
theorem diff_is_set_difference_by_id_witness :
    (∀ t, t ∈ new_tracks_of freshTwo ["1"]
        ↔ t ∈ freshTwo ∧ ¬ ∃ r ∈ [rowOne], dictGet "id" r = some t.id)
    ∧ (new_tracks_of freshTwo ["1"]).Sublist freshTwo :=
  diff_is_set_difference_by_id freshTwo [rowOne] ["1"] (by decide)

/-- Claim C2: saving any track list and loading it back from the same path
yields the same sequence of row dicts: same ids, names, artists and urls,
in the same order. -/
theorem save_load_roundtrip (T : List Track) (fs : FileState) :
    load_existing_tracks (save_tracks T fs)
      = T.map (fun t =>
          [("id", t.id), ("name", t.name), ("artist", t.artist),
           ("url", t.url)]) := by
  show (T.map trackToRecord).map (fun r => fieldnames.zip r) = _
  rw [List.map_map]
  exact List.map_congr_left fun t _ => rfl

/-- Claim C7: when the snapshot file does not exist, load_existing_tracks
returns the empty sequence (the first-run case); as a total Lean function
it raises nothing. -/
theorem load_missing_file_is_empty : load_existing_tracks none = [] := rfl

/-- Claim C9: the formatted notification message is the fixed preamble
sentence followed by one name-dash-artist plus url block per track in input
order, each block preceded by a blank-line separator; for the empty list it
is exactly the preamble with no separator at all. -/
theorem format_message_shape (tracks : List Track) :
    format_tracks_message tracks
        = preambleLine ++ sepConcat "\n\n" (tracks.map trackBlock)
    ∧ format_tracks_message [] = preambleLine := by
  constructor
  · exact strJoin_cons_eq "\n\n" preambleLine (tracks.map trackBlock)
  · rfl

/-- Claim C10: load_existing_tracks never modifies the snapshot file — its
file operations (a single read when the file exists, none otherwise) leave
the file state exactly as it was; save_tracks is the operation whose single
write produces the saved state. -/
theorem load_leaves_file_unchanged (fs : FileState) :
    (loadFileOps fs).foldl applyFileOp fs = fs
    ∧ ∀ T : List Track,
        (saveFileOps T).foldl applyFileOp fs = save_tracks T fs := by
  refine ⟨?_, fun T => rfl⟩
  cases fs <;> rfl

/-- Claim C6: in a run whose diff is empty, main prints the no-new-songs
report, never hands the notifier a message, and leaves the snapshot file
exactly as it was. -/
theorem empty_diff_no_notify_no_save (env : Env) (fs : FileState)
    (token : String) (pages : List (List ApiItem)) (ids : List String)
    (htok : env.tokenResult = .ok token)
    (hfetch : env.fetchPages token = .ok pages)
    (hids : existingIdsOf (load_existing_tracks fs) = some ids)
    (hempty : new_tracks_of (get_playlist_tracks pages) ids = []) :
    main env fs = ⟨⟨fs, ["No new songs found."], [], []⟩, true⟩ := by
  simp [main, mainBody, htok, hfetch, hids, hempty]

/-- Witness for C6: an environment whose fetch yields no tracks, run against
a missing snapshot file. -/
theorem empty_diff_no_notify_no_save_witness :
    main envNoNew none = ⟨⟨none, ["No new songs found."], [], []⟩, true⟩ :=
  empty_diff_no_notify_no_save envNoNew none "tok" [] [] rfl rfl rfl rfl

/-- Claim C3: in a run with a non-empty diff, the snapshot save happens
exactly when the notification delivery succeeded (so the save is attempted
only after a successful delivery); when delivery raises, the snapshot file
is unchanged and nothing was delivered, and the ids the next run would load
are the same, so the same diff is detected again. -/
theorem save_only_after_successful_notify (env : Env) (fs : FileState)
    (token : String) (pages : List (List ApiItem)) (ids : List String)
    (htok : env.tokenResult = .ok token)
    (hfetch : env.fetchPages token = .ok pages)
    (hids : existingIdsOf (load_existing_tracks fs) = some ids)
    (hnew : new_tracks_of (get_playlist_tracks pages) ids ≠ []) :
    (∀ e, env.sendResult (format_tracks_message
          (new_tracks_of (get_playlist_tracks pages) ids)) = .error e →
        (main env fs).state.fs = fs
        ∧ (main env fs).state.sent = []
        ∧ existingIdsOf (load_existing_tracks (main env fs).state.fs)
            = some ids)
    ∧ (env.sendResult (format_tracks_message
          (new_tracks_of (get_playlist_tracks pages) ids)) = .ok () →
        (main env fs).state.fs = save_tracks (get_playlist_tracks pages) fs
        ∧ (main env fs).state.sent
            = [format_tracks_message
                (new_tracks_of (get_playlist_tracks pages) ids)]) := by
  have hne : (new_tracks_of (get_playlist_tracks pages) ids).isEmpty
      = false := by simp [hnew]
  constructor
  · intro e hsend
    simp [main, mainBody, htok, hfetch, hids, hne, hsend]
  · intro hsend
    simp [main, mainBody, htok, hfetch, hids, hne, hsend]

/-- Witness for C3: a run that finds one new track and whose delivery fails
with a network error, against a missing snapshot file. -/
theorem save_only_after_successful_notify_witness :
    (∀ e, envSendFails.sendResult (format_tracks_message
          (new_tracks_of (get_playlist_tracks [[goodItem]]) [])) = .error e →
        (main envSendFails none).state.fs = none
        ∧ (main envSendFails none).state.sent = []
        ∧ existingIdsOf
            (load_existing_tracks (main envSendFails none).state.fs)
            = some [])
    ∧ (envSendFails.sendResult (format_tracks_message
          (new_tracks_of (get_playlist_tracks [[goodItem]]) [])) = .ok () →
        (main envSendFails none).state.fs
            = save_tracks (get_playlist_tracks [[goodItem]]) none
        ∧ (main envSendFails none).state.sent
            = [format_tracks_message
                (new_tracks_of (get_playlist_tracks [[goodItem]]) [])]) :=
  save_only_after_successful_notify envSendFails none "tok" [[goodItem]] []
    rfl rfl rfl (by decide)

/-- Claim C8: every exception a component raises during a run is caught at
main's top level: the run always terminates cleanly, and when the try body
raised, main's final state is the state at the raise with the error line
logged after the lines already printed. -/
theorem top_level_catch_all (env : Env) (fs : FileState) :
    (main env fs).exitedCleanly = true
    ∧ ∀ e s, mainBody env fs = .error (e, s) →
        (main env fs).state
          = { s with printed := s.printed ++ [errLine e] } := by
  cases h : mainBody env fs with
  | ok s =>
    refine ⟨by simp [main, h], ?_⟩
    intro e s' hs
    cases hs
  | error es =>
    obtain ⟨e, s⟩ := es
    refine ⟨by simp [main, h], ?_⟩
    intro e' s' hs
    injection hs with h2
    cases h2
    simp [main, h]

/-- Counterexample to claim C4 as stated: an item whose track object has a
valid id, name and external url but whose artists key is absent is skipped
by the fetch (excluded from the result), not normalized with artist
Unknown Artist. -/
theorem missing_artists_item_skipped :
    processItem missingArtistsItem = none
    ∧ get_playlist_tracks [[missingArtistsItem]] = [] :=
  ⟨rfl, rfl⟩

/-- Claim C4, amended: a null (or absent) track reference excludes the item;
an artist list that is present but empty is normalized to the sentinel
Unknown Artist; an absent artists key, a first artist without a name, or
any other structurally missing required field (id, name, external urls, or
no spotify url) causes the item to be skipped. -/
theorem playlist_item_normalization :
    processItem .nullTrack = none
    ∧ processItem .missingTrack = none
    ∧ (∀ (id name : String) (urls : Row) (url : String),
        dictGet "spotify" urls = some url →
        processItem (.someTrack ⟨some id, some name, some [], some urls⟩)
          = some ⟨id, name, "Unknown Artist", url⟩)
    ∧ (∀ t : ApiTrack, t.artists = none → processItem (.someTrack t) = none)
    ∧ (∀ (t : ApiTrack) (a : ApiArtist) (rest : List ApiArtist),
        t.artists = some (a :: rest) → a.name = none →
        processItem (.someTrack t) = none)
    ∧ (∀ t : ApiTrack,
        t.id = none ∨ t.name = none ∨ t.external_urls = none →
        processItem (.someTrack t) = none)
    ∧ (∀ (t : ApiTrack) (urls : Row),
        t.external_urls = some urls → dictGet "spotify" urls = none →
        processItem (.someTrack t) = none) := by
  refine ⟨rfl, rfl, ?_, ?_, ?_, ?_, ?_⟩
  · intro id name urls url hurl
    simp [processItem, hurl]
  · rintro ⟨i, n, ar, eu⟩ h
    simp only at h
    subst h
    cases i <;> cases n <;> cases eu <;> rfl
  · rintro ⟨i, n, ar, eu⟩ a rest h ha
    simp only at h
    subst h
    cases i <;> cases n <;> cases eu <;> simp [processItem, ha]
  · rintro ⟨i, n, ar, eu⟩ h
    rcases h with h | h | h <;> simp only at h <;> subst h
    · rfl
    · cases i <;> rfl
    · cases i <;> cases n <;> cases ar <;> rfl
  · rintro ⟨i, n, ar, eu⟩ urls heu hurl
    simp only at heu
    subst heu
    cases i with
    | none => rfl
    | some id =>
      cases n with
      | none => rfl
      | some name =>
        cases ar with
        | none => rfl
        | some artists =>
          cases artists with
          | nil => simp [processItem, hurl]
          | cons a rest => cases ha : a.name <;> simp [processItem, hurl, ha]

/-- Witness for the amended C4's conditional parts: an item with an empty
artist list is included with the sentinel artist. -/
theorem playlist_item_normalization_witness :
    processItem
        (.someTrack ⟨some "9", some "Solo", some [], some [("spotify", "u9")]⟩)
      = some ⟨"9", "Solo", "Unknown Artist", "u9"⟩ :=
  (playlist_item_normalization.2.2.1 "9" "Solo" [("spotify", "u9")] "u9" rfl)

/-- Counterexample to claim C5 as stated: a well-formed item whose id value
is the empty string is included in the fetch result with an empty id. -/
theorem empty_id_track_included :
    get_playlist_tracks [[emptyIdItem]] = [⟨"", "Song", "Artist", "urly"⟩]
    ∧ ¬ ∀ tr ∈ get_playlist_tracks [[emptyIdItem]], tr.id ≠ "" := by
  refine ⟨rfl, fun h => ?_⟩
  exact h ⟨"", "Song", "Artist", "urly"⟩ (by decide) rfl

/-- Claim C5, amended: the fetch propagates each included track's id
verbatim from the upstream item and does not itself enforce non-emptiness;
every included track's id is non-empty provided every upstream track
object's id value is non-empty (`itemIdOk`). -/
theorem fetched_ids_nonempty_under_upstream (pages : List (List ApiItem))
    (h : ∀ items ∈ pages, ∀ it ∈ items, itemIdOk it = true) :
    ∀ tr ∈ get_playlist_tracks pages, tr.id ≠ "" := by
  intro tr htr
  rw [get_playlist_tracks_eq, List.mem_flatMap] at htr
  obtain ⟨items, hitems, htr2⟩ := htr
  rw [List.mem_filterMap] at htr2
  obtain ⟨it, hit, hproc⟩ := htr2
  obtain ⟨t, rfl, hid⟩ := processItem_some hproc
  have hok := h items hitems _ hit
  rw [itemIdOk, hid] at hok
  simpa using hok

/-- Witness for the amended C5: one page with one good item whose id is
non-empty yields only tracks with non-empty ids. -/
theorem fetched_ids_nonempty_under_upstream_witness :
    (get_playlist_tracks [[goodItem]]).all (fun tr => decide (tr.id ≠ ""))
      = true := by
  rw [List.all_eq_true]
  intro tr htr
  simpa using
    fetched_ids_nonempty_under_upstream [[goodItem]] (by decide) tr htr
